import Mathlib

/-!
Verification of the amazon_clone repository: a shallow embedding of the
client state controller (`frontend/src/App.js`, `CartItem.jsx`) and of the
catalog/order service, together with proofs of the spec's testable
properties.  Prices are modelled as integers in the currency's minor unit;
JavaScript string truthiness (empty string falsy) is made explicit where
the source relies on it.
-/

namespace AmazonClone

/-- A catalog product as served by `GET /api/products` and stored in the
`products` table (`backend/schema.sql`): identifier, name, price, category,
description, up to three optional image references, stock count. -/
structure Product where
  id : Nat
  name : String
  price : Int
  category : String
  description : String
  image_url : Option String
  image_url2 : Option String
  image_url3 : Option String
  stock : Nat
  deriving DecidableEq, Repr

/-- A client-side cart entry, as created by `addToCart` in `App.js`:
a random entry id, the product reference, denormalized name/price/image,
and a quantity. -/
structure CartEntry where
  id : Nat
  product_id : Nat
  name : String
  price : Int
  image_url : Option String
  quantity : Int
  deriving DecidableEq, Repr

/-- An order as returned by `POST /api/checkout` and stored in the `orders`
table: identifier, total amount, shipping address, status. -/
structure Order where
  id : Nat
  total_amount : Int
  shipping_address : String
  status : String
  deriving DecidableEq, Repr

/-- The fresh cart entry built by `addToCart` / `buyNow` in `App.js`
(`id: Math.random()` is modelled by an explicitly supplied fresh id). -/
def newCartEntry (fresh : Nat) (p : Product) : CartEntry :=
  { id := fresh
    product_id := p.id
    name := p.name
    price := p.price
    image_url := p.image_url
    quantity := 1 }

/-- Cart mutation of `addToCart` in `App.js`: if an entry with the same
`product_id` exists, increment its quantity by 1 via a map, else append a
new entry with quantity 1. -/
def addToCartList (cart : List CartEntry) (p : Product) (fresh : Nat) : List CartEntry :=
  if cart.any (fun it => it.product_id == p.id) then
    cart.map (fun it =>
      if it.product_id == p.id then { it with quantity := it.quantity + 1 } else it)
  else
    cart ++ [newCartEntry fresh p]

/-- `removeFromCart` in `App.js`: keep every entry whose id differs. -/
def removeFromCart (cart : List CartEntry) (entryId : Nat) : List CartEntry :=
  cart.filter (fun it => !(it.id == entryId))

/-- `updateQuantity` in `App.js`: a non-positive quantity removes the entry,
a positive one overwrites the matching entry's quantity. -/
def updateQuantity (cart : List CartEntry) (entryId : Nat) (quantity : Int) :
    List CartEntry :=
  if quantity ≤ 0 then
    removeFromCart cart entryId
  else
    cart.map (fun it => if it.id == entryId then { it with quantity := quantity } else it)

/-- `cartTotal` in `App.js`: `cart.reduce((sum, item) => sum + item.price * item.quantity, 0)`. -/
def cartTotal (cart : List CartEntry) : Int :=
  cart.foldl (fun sum it => sum + it.price * it.quantity) 0

/-- JavaScript `parseInt(text) || 1` from the quantity input in
`CartItem.jsx`: a failed parse (`NaN`) or a parsed 0 are falsy and coerce
to 1; any other parsed value passes through. -/
def jsParseOr1 : Option Int → Int
  | none => 1
  | some v => if v = 0 then 1 else v

/-- The `onChange` handler of the quantity input in `CartItem.jsx`:
`onUpdateQuantity(item.id, parseInt(e.target.value) || 1)`. -/
def quantityInputChange (cart : List CartEntry) (entryId : Nat) (parsed : Option Int) :
    List CartEntry :=
  updateQuantity cart entryId (jsParseOr1 parsed)

/- Search and filter logic of the catalog effect in App.js. -/

/-- Character-list analogue of a JavaScript string starting with another:
true when the first list is an initial segment of the second. -/
def leadMatch : List Char → List Char → Bool
  | [], _ => true
  | _ :: _, [] => false
  | c :: cs, d :: ds => c == d && leadMatch cs ds

/-- Character-list analogue of JavaScript `String.includes`: true when the
first list occurs contiguously inside the second. -/
def subMatch (needle : List Char) : List Char → Bool
  | [] => leadMatch needle []
  | d :: ds => leadMatch needle (d :: ds) || subMatch needle ds

/-- JavaScript `toLowerCase` on the characters of a string. -/
def lowerChars (s : String) : List Char :=
  s.toList.map Char.toLower

/-- The search predicate of App.js:
`p.name.toLowerCase().includes(searchTerm.toLowerCase())`. -/
def includesCI (hay needle : String) : Bool :=
  subMatch (lowerChars needle) (lowerChars hay)

/-- JavaScript `trim`: drop whitespace characters from both ends of the
string. -/
def jsTrim (s : String) : String :=
  String.mk (((s.toList.dropWhile Char.isWhitespace).reverse.dropWhile
    Char.isWhitespace).reverse)

/-- The search-and-filter effect of App.js: start from the full catalog,
filter by category when the selected category is not the "All" sentinel,
then filter by case-insensitive name search when the trimmed search term is
non-empty. -/
def filteredProducts (products : List Product) (selectedCategory searchTerm : String) :
    List Product :=
  let results :=
    if selectedCategory = "All" then products
    else products.filter (fun p => p.category == selectedCategory)
  if jsTrim searchTerm = "" then results
  else results.filter (fun p => includesCI p.name searchTerm)

/- Image carousel of the product detail view. -/

/-- JavaScript truthiness test used by `getProductImages`: a missing
reference (null) and the empty string are both falsy and contribute no
image. -/
def imageIfTruthy : Option String → List String
  | none => []
  | some s => if s = "" then [] else [s]

/-- `getProductImages` in App.js: collect `image_url`, `image_url2`,
`image_url3` in order, skipping falsy ones. -/
def getProductImages (p : Product) : List String :=
  imageIfTruthy p.image_url ++ imageIfTruthy p.image_url2 ++ imageIfTruthy p.image_url3

/- Client application state and panel selection. -/

/-- The full client state held by App.js via useState hooks (loading is
omitted: every claim concerns the loaded application). -/
structure AppState where
  products : List Product
  cart : List CartEntry
  showCart : Bool
  showCheckout : Bool
  selectedProduct : Option Product
  searchTerm : String
  selectedCategory : String
  address : String
  orders : List Order
  showOrders : Bool
  currentImageIndex : Nat
  orderConfirmation : Option Order
  deriving Repr

/-- The six mutually exclusive panels of the spec's view-state machine. -/
inductive Panel where
  | catalog
  | productDetail
  | cart
  | checkout
  | orders
  | confirmation
  deriving DecidableEq, Repr

/-- The panel actually rendered, read off the conditional chain of App.js's
main render: orderConfirmation, then showOrders, then selectedProduct, then
showCart, then showCheckout, else the catalog grid. -/
def panel (st : AppState) : Panel :=
  if st.orderConfirmation.isSome then Panel.confirmation
  else if st.showOrders then Panel.orders
  else if st.selectedProduct.isSome then Panel.productDetail
  else if st.showCart then Panel.cart
  else if st.showCheckout then Panel.checkout
  else Panel.catalog

/-- `nextImage` in App.js: with a product selected, advance the carousel
index modulo the number of images. -/
def nextImage (st : AppState) : AppState :=
  match st.selectedProduct with
  | none => st
  | some p =>
    { st with currentImageIndex := (st.currentImageIndex + 1) % (getProductImages p).length }

/-- `prevImage` in App.js: with a product selected, step the carousel index
back one position, wrapping.  The source computes
`(prev - 1 + images.length) % images.length`; for a natural index this is
`(prev + images.length - 1) % images.length`. -/
def prevImage (st : AppState) : AppState :=
  match st.selectedProduct with
  | none => st
  | some p =>
    { st with currentImageIndex :=
        (st.currentImageIndex + (getProductImages p).length - 1) % (getProductImages p).length }

/-- `handleHomeClick` in App.js: clear every panel flag. -/
def handleHomeClick (st : AppState) : AppState :=
  { st with showOrders := false, showCart := false, showCheckout := false,
            selectedProduct := none, orderConfirmation := none }

/-- `handleOrdersClick` in App.js: toggle the orders panel, clear the rest. -/
def handleOrdersClick (st : AppState) : AppState :=
  { st with showOrders := !st.showOrders, showCart := false, showCheckout := false,
            selectedProduct := none, orderConfirmation := none }

/-- `handleCartClick` in App.js: toggle the cart panel, clear the rest. -/
def handleCartClick (st : AppState) : AppState :=
  { st with showCart := !st.showCart, showCheckout := false, showOrders := false,
            selectedProduct := none, orderConfirmation := none }

/-- The `onViewDetails` callback of the product grid: select the product
and reset the carousel index to 0. -/
def selectProduct (st : AppState) (p : Product) : AppState :=
  { st with selectedProduct := some p, currentImageIndex := 0 }

/-- The "Proceed to Checkout" button of the cart view: show checkout, hide
the cart. -/
def proceedToCheckout (st : AppState) : AppState :=
  { st with showCheckout := true, showCart := false }

/-- `addToCart` in App.js lifted to the application state: only the cart
changes (the alert is transient UI, not state). -/
def addToCart (st : AppState) (p : Product) (fresh : Nat) : AppState :=
  { st with cart := addToCartList st.cart p fresh }

/-- `buyNow` in App.js: the same cart mutation as addToCart, then hide
cart/orders/product detail and show checkout. -/
def buyNow (st : AppState) (p : Product) (fresh : Nat) : AppState :=
  { st with cart := addToCartList st.cart p fresh,
            showCart := false, showCheckout := true, showOrders := false,
            selectedProduct := none }

/-- The success branch of `handleCheckout` in App.js: append the returned
order, show the confirmation panel, clear cart and address, hide cart and
checkout. -/
def checkoutSuccess (st : AppState) (order : Order) : AppState :=
  { st with orders := st.orders ++ [order], orderConfirmation := some order,
            cart := [], address := "", showCheckout := false, showCart := false }

/-- The "Continue Shopping" button of the confirmation panel: clear every
panel flag, returning to the catalog. -/
def continueShopping (st : AppState) : AppState :=
  { st with orderConfirmation := none, showCart := false, showCheckout := false,
            showOrders := false, selectedProduct := none }

/-- The client state right after the catalog has loaded: empty cart, no
panel flag set, "All" category, blank search and address. -/
def initState (ps : List Product) : AppState :=
  { products := ps, cart := [], showCart := false, showCheckout := false,
    selectedProduct := none, searchTerm := "", selectedCategory := "All",
    address := "", orders := [], showOrders := false, currentImageIndex := 0,
    orderConfirmation := none }

/-- Count of active panel indicators among showCart, showCheckout,
showOrders, selectedProduct, orderConfirmation. -/
def activeFlags (st : AppState) : Nat :=
  (if st.showCart then 1 else 0) + (if st.showCheckout then 1 else 0) +
  (if st.showOrders then 1 else 0) + (if st.selectedProduct.isSome then 1 else 0) +
  (if st.orderConfirmation.isSome then 1 else 0)

/-- The user-driven panel transitions of App.js.  The header buttons are
always available; the other transitions are guarded by the panel from
which their UI control is rendered. -/
inductive ClientStep : AppState → AppState → Prop where
  | home (st : AppState) : ClientStep st (handleHomeClick st)
  | ordersToggle (st : AppState) : ClientStep st (handleOrdersClick st)
  | cartToggle (st : AppState) : ClientStep st (handleCartClick st)
  | view (st : AppState) (p : Product) :
      panel st = Panel.catalog → ClientStep st (selectProduct st p)
  | proceed (st : AppState) :
      panel st = Panel.cart → ClientStep st (proceedToCheckout st)
  | buy (st : AppState) (p : Product) (fresh : Nat) :
      panel st = Panel.productDetail → ClientStep st (buyNow st p fresh)
  | checkoutOk (st : AppState) (o : Order) :
      panel st = Panel.checkout → ClientStep st (checkoutSuccess st o)
  | continueClick (st : AppState) :
      panel st = Panel.confirmation → ClientStep st (continueShopping st)

/-- Reachability of a client state from the freshly loaded application. -/
def ReachableFrom (ps : List Product) (st : AppState) : Prop :=
  Relation.ReflTransGen ClientStep (initState ps) st

/- The catalog/order service. -/

/-- One line item of a `POST /api/checkout` request body. -/
structure SubmittedItem where
  product_id : Nat
  name : String
  price : Int
  quantity : Int
  deriving DecidableEq, Repr

/-- A persisted row of the `order_items` table (`backend/schema.sql`). -/
structure OrderItemRow where
  id : Nat
  order_id : Nat
  product_id : Nat
  quantity : Int
  price : Int
  deriving DecidableEq, Repr

/-- The store's order-side contents: the `orders` and `order_items` tables
plus the auto-increment counters. -/
structure Store where
  orders_rows : List Order
  order_items_rows : List OrderItemRow
  nextOrderId : Nat
  nextItemId : Nat
  deriving DecidableEq, Repr

/-- Modelled from the spec: the backend service (`backend/main.py`) is not
among the repository sources, only its schema and README are.  Following
spec section 4.1, `checkout(shippingAddress, items)` signals a validation
error if the address is empty or the item list is empty; otherwise it
recomputes the total as the sum of price times quantity over the submitted
line items, inserts one Order row with the recomputed total, the given
address and the default "confirmed" status, inserts one OrderItem row per
submitted item, and returns the persisted order. -/
def checkout (store : Store) (shipping_address : String) (items : List SubmittedItem) :
    Except String (Store × Order) :=
  if shipping_address = "" then
    Except.error "shipping address is required"
  else if items.isEmpty then
    Except.error "order items are required"
  else
    let total := items.foldl (fun sum it => sum + it.price * it.quantity) 0
    let order : Order :=
      { id := store.nextOrderId, total_amount := total,
        shipping_address := shipping_address, status := "confirmed" }
    let rows := items.enum.map (fun pr =>
      ({ id := store.nextItemId + pr.1, order_id := order.id,
         product_id := pr.2.product_id, quantity := pr.2.quantity,
         price := pr.2.price } : OrderItemRow))
    Except.ok
      ({ orders_rows := store.orders_rows ++ [order],
         order_items_rows := store.order_items_rows ++ rows,
         nextOrderId := store.nextOrderId + 1,
         nextItemId := store.nextItemId + items.length }, order)

/-- The line item the client builds from a cart entry in `handleCheckout`:
`{product_id, name, price, quantity}`. -/
def toSubmittedItem (it : CartEntry) : SubmittedItem :=
  { product_id := it.product_id, name := it.name, price := it.price,
    quantity := it.quantity }

/-- `handleCheckout` in App.js combined with the service: a blank (trimmed
empty) address is rejected client-side with no request; otherwise the cart
is posted, an error response leaves client and store unchanged (only an
alert is shown), and a success response applies `checkoutSuccess`. -/
def handleCheckout (st : AppState) (store : Store) : AppState × Store :=
  if jsTrim st.address = "" then
    (st, store)
  else
    match checkout store st.address (st.cart.map toSubmittedItem) with
    | Except.error _ => (st, store)
    | Except.ok (store2, order) => (checkoutSuccess st order, store2)

/- Concrete sample data used to evaluate the theorems on closed inputs. -/

/-- A sample catalog product with three images, as in the spec's example. -/
def sampleProduct : Product :=
  { id := 1, name := "Red Shirt", price := 499, category := "Apparel",
    description := "A red shirt", image_url := some "red1.jpg",
    image_url2 := some "red2.jpg", image_url3 := some "red3.jpg", stock := 5 }

/-- A sample cart entry for the sample product. -/
def sampleEntry : CartEntry :=
  { id := 7, product_id := 1, name := "Red Shirt", price := 499,
    image_url := some "red1.jpg", quantity := 2 }

/-- An empty store with fresh auto-increment counters. -/
def sampleStore : Store :=
  { orders_rows := [], order_items_rows := [], nextOrderId := 1, nextItemId := 1 }

/-- A client state on the checkout panel with one cart entry and a filled
address. -/
def sampleState : AppState :=
  { initState [sampleProduct] with
    cart := [sampleEntry],
    address := "221B Baker St",
    showCheckout := true }

/-- A client state on the product-detail panel showing the third image. -/
def detailState : AppState :=
  { initState [sampleProduct] with
    selectedProduct := some sampleProduct,
    currentImageIndex := 2 }

/- Helper lemmas about lists. -/

/-- Folding an additive accumulator equals the initial value plus the sum of
the mapped list. -/
theorem foldl_add_map_sum {α : Type} (f : α → Int) :
    ∀ (l : List α) (a : Int), l.foldl (fun s x => s + f x) a = a + (l.map f).sum := by
  intro l
  induction l with
  | nil => intro a; simp
  | cons x xs ih =>
    intro a
    simp only [List.foldl_cons, List.map_cons, List.sum_cons, ih]
    ring

/-- Filtering out the matches of a predicate drops exactly `countP` elements. -/
theorem length_filter_not_add_countP {α : Type} (p : α → Bool) (l : List α) :
    (l.filter (fun a => !(p a))).length + l.countP p = l.length := by
  induction l with
  | nil => simp
  | cons x xs ih =>
    by_cases h : p x = true
    · simp [List.filter_cons, List.countP_cons, h]
      omega
    · simp [List.filter_cons, List.countP_cons, h]
      omega

/-- Mapping a function that fixes every member of a list is the identity. -/
theorem map_noop {α : Type} (f : α → α) (l : List α) (h : ∀ a ∈ l, f a = a) :
    l.map f = l := by
  induction l with
  | nil => rfl
  | cons x xs ih =>
    simp only [List.map_cons]
    rw [h x (by simp), ih (fun a ha => h a (by simp [ha]))]

theorem leadMatch_iff (needle : List Char) :
    ∀ hay : List Char, leadMatch needle hay = true ↔ ∃ t, hay = needle ++ t := by
  induction needle with
  | nil =>
    intro hay
    simp [leadMatch]
  | cons c cs ih =>
    intro hay
    match hay with
    | [] =>
      simp [leadMatch]
    | d :: ds =>
      simp only [leadMatch, Bool.and_eq_true, beq_iff_eq, ih ds, List.cons_append]
      constructor
      · rintro ⟨rfl, t, rfl⟩
        exact ⟨t, rfl⟩
      · rintro ⟨t, h⟩
        simp only [List.cons.injEq] at h
        exact ⟨h.1.symm, t, h.2⟩

theorem subMatch_iff (needle : List Char) :
    ∀ hay : List Char, subMatch needle hay = true ↔ ∃ s t, hay = s ++ needle ++ t := by
  intro hay
  induction hay with
  | nil =>
    simp only [subMatch, leadMatch_iff]
    constructor
    · rintro ⟨t, h⟩
      exact ⟨[], t, by simpa using h⟩
    · rintro ⟨s, t, h⟩
      exact ⟨t, by
        rcases s with _ | ⟨a, s⟩
        · simpa using h
        · simp at h⟩
  | cons d ds ih =>
    simp only [subMatch, Bool.or_eq_true, leadMatch_iff, ih]
    constructor
    · rintro (⟨t, h⟩ | ⟨s, t, h⟩)
      · exact ⟨[], t, by simpa using h⟩
      · exact ⟨d :: s, t, by simp [h]⟩
    · rintro ⟨s, t, h⟩
      rcases s with _ | ⟨a, s⟩
      · exact Or.inl ⟨t, by simpa using h⟩
      · right
        refine ⟨s, t, ?_⟩
        simp only [List.cons_append, List.cons.injEq] at h
        exact h.2

/-- Trimming the empty string yields the empty string. -/
theorem jsTrim_empty : jsTrim "" = "" := by decide

/-- Stepping back after a wrapping forward step restores the index. -/
theorem prev_next_id (n i : Nat) (h : i < n) :
    ((i + 1) % n + n - 1) % n = i := by
  by_cases he : i + 1 = n
  · rw [← he, Nat.mod_self]
    have h0 : 0 + (i + 1) - 1 = i := by omega
    rw [h0, Nat.mod_eq_of_lt (by omega)]
  · have h2 : i + 1 < n := by omega
    rw [Nat.mod_eq_of_lt h2]
    have h3 : i + 1 + n - 1 = i + n := by omega
    rw [h3, Nat.add_mod_right, Nat.mod_eq_of_lt h]

/-- The catalog panel is rendered exactly when every panel flag is clear. -/
theorem panel_catalog_flags (st : AppState) (h : panel st = Panel.catalog) :
    st.orderConfirmation = none ∧ st.showOrders = false ∧ st.selectedProduct = none ∧
    st.showCart = false ∧ st.showCheckout = false := by
  unfold panel at h
  split_ifs at h; simp_all [Option.not_isSome_iff_eq_none]

/-- Flag shape of a state rendering the cart panel. -/
theorem panel_cart_flags (st : AppState) (h : panel st = Panel.cart) :
    st.orderConfirmation = none ∧ st.showOrders = false ∧ st.selectedProduct = none ∧
    st.showCart = true := by
  unfold panel at h
  split_ifs at h; simp_all [Option.not_isSome_iff_eq_none]

/-- Flag shape of a state rendering the product-detail panel. -/
theorem panel_detail_flags (st : AppState) (h : panel st = Panel.productDetail) :
    st.orderConfirmation = none ∧ st.showOrders = false := by
  unfold panel at h
  split_ifs at h; simp_all [Option.not_isSome_iff_eq_none]

/-- Flag shape of a state rendering the checkout panel. -/
theorem panel_checkout_flags (st : AppState) (h : panel st = Panel.checkout) :
    st.orderConfirmation = none ∧ st.showOrders = false ∧ st.selectedProduct = none ∧
    st.showCart = false ∧ st.showCheckout = true := by
  unfold panel at h
  split_ifs at h; simp_all [Option.not_isSome_iff_eq_none]

/-- Every client transition lands in a state with at most one active panel
indicator. -/
theorem clientStep_flags {s s' : AppState} (hstep : ClientStep s s') :
    activeFlags s' ≤ 1 := by
  cases hstep with
  | home =>
    simp [activeFlags, handleHomeClick]
  | ordersToggle =>
    cases hb : s.showOrders <;> simp [activeFlags, handleOrdersClick, hb]
  | cartToggle =>
    cases hb : s.showCart <;> simp [activeFlags, handleCartClick, hb]
  | view p hg =>
    obtain ⟨ho, hso, hsp, hc, hck⟩ := panel_catalog_flags s hg
    simp [activeFlags, selectProduct, ho, hso, hc, hck]
  | proceed hg =>
    obtain ⟨ho, hso, hsp, hc⟩ := panel_cart_flags s hg
    simp [activeFlags, proceedToCheckout, ho, hso, hsp]
  | buy p fresh hg =>
    obtain ⟨ho, hso⟩ := panel_detail_flags s hg
    simp [activeFlags, buyNow, ho]
  | checkoutOk o hg =>
    obtain ⟨ho, hso, hsp, hc, hck⟩ := panel_checkout_flags s hg
    simp [activeFlags, checkoutSuccess, hso, hsp]
  | continueClick hg =>
    simp [activeFlags, continueShopping]

/- Claim theorems about the pure cart operations. -/

/-- C3: addToCart increments the quantity of an existing entry for the same
product without adding a new entry, appends a fresh entry with quantity 1
when the product is absent, and two successive adds of the same product to
a cart free of that product leave exactly the original entries plus one
entry for the product with quantity 2. -/
theorem addToCart_merge_or_append (cart : List CartEntry) (p : Product) (f1 f2 : Nat) :
    ((∃ it ∈ cart, it.product_id = p.id) →
       (addToCartList cart p f1).length = cart.length ∧
       (∀ it ∈ cart, it.product_id = p.id →
          { it with quantity := it.quantity + 1 } ∈ addToCartList cart p f1) ∧
       (∀ it ∈ cart, it.product_id ≠ p.id → it ∈ addToCartList cart p f1)) ∧
    ((∀ it ∈ cart, it.product_id ≠ p.id) →
       addToCartList cart p f1 = cart ++ [newCartEntry f1 p]) ∧
    ((∀ it ∈ cart, it.product_id ≠ p.id) →
       addToCartList (addToCartList cart p f1) p f2 =
         cart ++ [{ newCartEntry f1 p with quantity := 2 }]) := by
  have hno : (∀ it ∈ cart, it.product_id ≠ p.id) →
      cart.any (fun it => it.product_id == p.id) = false := by
    intro h
    rw [List.any_eq_false]
    intro x hx
    simp [h x hx]
  refine ⟨?_, ?_, ?_⟩
  · rintro ⟨it0, hmem, hid⟩
    have hany : cart.any (fun it => it.product_id == p.id) = true := by
      simp only [List.any_eq_true]
      exact ⟨it0, hmem, by simp [hid]⟩
    simp only [addToCartList, hany, if_true]
    refine ⟨by simp, ?_, ?_⟩
    · intro it hit hidit
      have : (fun it : CartEntry =>
          if it.product_id == p.id then { it with quantity := it.quantity + 1 } else it) it =
          { it with quantity := it.quantity + 1 } := by
        simp [hidit]
      exact this ▸ List.mem_map_of_mem _ hit
    · intro it hit hne
      have : (fun it : CartEntry =>
          if it.product_id == p.id then { it with quantity := it.quantity + 1 } else it) it =
          it := by
        simp [hne]
      exact this ▸ List.mem_map_of_mem _ hit
  · intro h
    simp [addToCartList, hno h]
  · intro h
    have h1 : addToCartList cart p f1 = cart ++ [newCartEntry f1 p] := by
      simp [addToCartList, hno h]
    rw [h1]
    have hany : (cart ++ [newCartEntry f1 p]).any (fun it => it.product_id == p.id) = true := by
      simp [newCartEntry]
    simp only [addToCartList, hany, if_true, List.map_append]
    rw [map_noop _ cart (by intro a ha; simp [h a ha])]
    simp [newCartEntry]

/-- C4: for a cart whose entry ids are unique and contain the given id,
updateQuantity with a non-positive quantity removes exactly the matching
entry (length drops by one, no matching entry remains, every other entry
is kept), while a positive quantity keeps the length and overwrites the
matching entry's quantity, with no stock-based upper bound. -/
theorem updateQuantity_remove_or_set (cart : List CartEntry) (entryId : Nat) (q : Int)
    (hcount : cart.countP (fun it => it.id == entryId) = 1) :
    (q ≤ 0 →
       (updateQuantity cart entryId q).length + 1 = cart.length ∧
       (∀ it ∈ updateQuantity cart entryId q, it.id ≠ entryId) ∧
       (∀ it ∈ cart, it.id ≠ entryId → it ∈ updateQuantity cart entryId q)) ∧
    (0 < q →
       (updateQuantity cart entryId q).length = cart.length ∧
       (∀ it ∈ updateQuantity cart entryId q, it.id = entryId → it.quantity = q) ∧
       (∀ it ∈ cart, it.id ≠ entryId → it ∈ updateQuantity cart entryId q)) := by
  constructor
  · intro hq
    have hbr : updateQuantity cart entryId q = removeFromCart cart entryId := by
      simp [updateQuantity, hq]
    rw [hbr]
    refine ⟨?_, ?_, ?_⟩
    · have := length_filter_not_add_countP (fun it : CartEntry => it.id == entryId) cart
      rw [hcount] at this
      simpa [removeFromCart] using this
    · intro it hit
      have := (List.mem_filter.mp hit).2
      simpa using this
    · intro it hit hne
      exact List.mem_filter.mpr ⟨hit, by simp [hne]⟩
  · intro hq
    have hbr : updateQuantity cart entryId q =
        cart.map (fun it => if it.id == entryId then { it with quantity := q } else it) := by
      simp [updateQuantity]
      omega
    rw [hbr]
    refine ⟨by simp, ?_, ?_⟩
    · intro it hit hid
      obtain ⟨a, ha, hae⟩ := List.mem_map.mp hit
      by_cases hmatch : a.id = entryId
      · have heq : ({ a with quantity := q } : CartEntry) = it := by
          rw [← hae]; simp [hmatch]
        rw [← heq]
      · have heq : a = it := by
          rw [← hae]; simp [hmatch]
        rw [← heq] at hid
        exact absurd hid hmatch
    · intro it hit hne
      have : (fun it : CartEntry =>
          if it.id == entryId then { it with quantity := q } else it) it = it := by
        simp [hne]
      exact this ▸ List.mem_map_of_mem _ hit

/-- C10: the quantity-input handler of CartItem passes
`parseInt(text) || 1` to updateQuantity, so the value handed over is never
0; typing "0" or clearing the field (a failed parse) sets the matching
entry's quantity to 1 without removing any entry, and a quantity of 0
reaches updateQuantity only through the decrement or remove buttons, where
it takes the removal branch. -/
theorem quantityInput_never_zero (cart : List CartEntry) (entryId : Nat) :
    (∀ parsed, jsParseOr1 parsed ≠ 0) ∧
    quantityInputChange cart entryId (some 0) =
      cart.map (fun it => if it.id == entryId then { it with quantity := 1 } else it) ∧
    quantityInputChange cart entryId none =
      cart.map (fun it => if it.id == entryId then { it with quantity := 1 } else it) ∧
    (quantityInputChange cart entryId (some 0)).length = cart.length ∧
    (quantityInputChange cart entryId none).length = cart.length ∧
    updateQuantity cart entryId 0 = removeFromCart cart entryId := by
  refine ⟨?_, ?_, ?_, ?_, ?_, ?_⟩
  · intro parsed
    match parsed with
    | none => simp [jsParseOr1]
    | some v =>
      by_cases h : v = 0
      · simp [jsParseOr1, h]
      · simp [jsParseOr1, h]
  · simp [quantityInputChange, jsParseOr1, updateQuantity]
  · simp [quantityInputChange, jsParseOr1, updateQuantity]
  · simp [quantityInputChange, jsParseOr1, updateQuantity]
  · simp [quantityInputChange, jsParseOr1, updateQuantity]
  · simp [updateQuantity]

/-- C5: the derived filtered list is the full catalog when the category is
"All" and the search term is blank; in general a product is listed iff it
is in the catalog, matches the selected category whenever that is not
"All", and, whenever the trimmed search term is non-blank, its lowercased
name contains the lowercased search term as a contiguous substring. -/
theorem filtered_catalog_spec (ps : List Product) (cat term : String) :
    (jsTrim term = "" → filteredProducts ps "All" term = ps) ∧
    (∀ p, p ∈ filteredProducts ps cat term ↔
       p ∈ ps ∧ (cat ≠ "All" → p.category = cat) ∧
       (jsTrim term ≠ "" →
         ∃ s t, lowerChars p.name = s ++ lowerChars term ++ t)) := by
  constructor
  · intro h
    simp [filteredProducts, h]
  · intro p
    by_cases hc : cat = "All" <;> by_cases ht : jsTrim term = "" <;>
      simp [filteredProducts, hc, ht, List.mem_filter, includesCI, subMatch_iff,
        beq_iff_eq] <;>
      tauto

/-- C5 witness: the spec's example catalog searched for "red" with category
"All" lists the red shirt. -/
theorem filtered_catalog_spec_witness :
    sampleProduct ∈ filteredProducts [sampleProduct] "All" "red" :=
  ((filtered_catalog_spec [sampleProduct] "All" "red").2 sampleProduct).mpr
    ⟨by decide, fun h => absurd rfl h,
     fun _ => ⟨[], " shirt".toList, by decide⟩⟩

/-- C6: with a product selected whose image sequence has length n ≥ 1 and
current index i < n, nextImage sets the index to (i+1) mod n, prevImage
sets it to (i−1+n) mod n (written (i+n−1) mod n over naturals), and prev
after next restores the original index. -/
theorem carousel_wraps (st : AppState) (p : Product) (n i : Nat)
    (hp : st.selectedProduct = some p)
    (hn : (getProductImages p).length = n)
    (hi : st.currentImageIndex = i)
    (hpos : 1 ≤ n) (hlt : i < n) :
    (nextImage st).currentImageIndex = (i + 1) % n ∧
    (prevImage st).currentImageIndex = (i + n - 1) % n ∧
    (prevImage (nextImage st)).currentImageIndex = i := by
  have hnext : nextImage st = { st with currentImageIndex := (i + 1) % n } := by
    simp [nextImage, hp, hn, hi]
  refine ⟨by rw [hnext], by simp [prevImage, hp, hn, hi], ?_⟩
  rw [hnext]
  have hgoal : (prevImage { st with currentImageIndex := (i + 1) % n }).currentImageIndex
      = ((i + 1) % n + n - 1) % n := by simp [prevImage, hp, hn]
  rw [hgoal]
  exact prev_next_id n i hlt

/-- C6 witness: on the three-image sample product, next from index 2 wraps
to 0 and prev from index 0 wraps back to 2. -/
theorem carousel_wraps_witness :
    (nextImage detailState).currentImageIndex = 0 ∧
    (prevImage { detailState with currentImageIndex := 0 }).currentImageIndex = 2 := by
  constructor
  · have h := (carousel_wraps detailState sampleProduct 3 2 (by decide) (by decide)
      (by decide) (by decide) (by decide)).1
    simpa using h
  · have h := (carousel_wraps { detailState with currentImageIndex := 0 }
      sampleProduct 3 0 (by decide) (by decide) (by decide) (by decide) (by decide)).2.1
    simpa using h

/-- C1: for a checkout submission with a non-blank shipping address and at
least one line item, the confirmed order's total equals the sum over the
submitted items of price times quantity, which is exactly the client's
cartTotal over the cart. -/
theorem checkout_total_is_sum (st : AppState) (store : Store)
    (h1 : jsTrim st.address ≠ "") (h2 : st.cart ≠ []) :
    ∃ o : Order,
      (handleCheckout st store).1.orderConfirmation = some o ∧
      o.total_amount = (st.cart.map (fun it => it.price * it.quantity)).sum ∧
      o.total_amount = cartTotal st.cart := by
  have haddr : st.address ≠ "" := by
    intro he
    exact h1 (by rw [he, jsTrim_empty])
  have hmap : (st.cart.map toSubmittedItem).isEmpty = false := by
    cases hc : st.cart with
    | nil => exact absurd hc h2
    | cons a l => simp [hc]
  refine ⟨{ id := store.nextOrderId,
            total_amount := (st.cart.map toSubmittedItem).foldl
              (fun sum it => sum + it.price * it.quantity) 0,
            shipping_address := st.address, status := "confirmed" }, ?_, ?_, ?_⟩
  · simp [handleCheckout, checkout, h1, haddr, hmap, checkoutSuccess]
  · show (st.cart.map toSubmittedItem).foldl
        (fun sum it => sum + it.price * it.quantity) 0 = _
    rw [foldl_add_map_sum]
    simp only [List.map_map, zero_add]
    congr 1
  · show (st.cart.map toSubmittedItem).foldl
        (fun sum it => sum + it.price * it.quantity) 0 = _
    rw [cartTotal, foldl_add_map_sum, foldl_add_map_sum]
    simp only [List.map_map, zero_add]
    congr 1

/-- C1 witness: checking out the sample cart (499 × 2) from the sample
state yields a confirmed order totalling the cart sum. -/
theorem checkout_total_is_sum_witness :
    ∃ o : Order,
      (handleCheckout sampleState sampleStore).1.orderConfirmation = some o ∧
      o.total_amount = (sampleState.cart.map (fun it => it.price * it.quantity)).sum ∧
      o.total_amount = cartTotal sampleState.cart :=
  checkout_total_is_sum sampleState sampleStore (by decide) (by decide)

/-- C2: a checkout attempt with a blank (empty or whitespace-only) address
or an empty cart leaves the client state and the store untouched — no
Order row, no OrderItem rows — and when the request is actually sent with
an empty item list, the service answers with a validation error. -/
theorem checkout_rejected_unchanged (st : AppState) (store : Store)
    (h : jsTrim st.address = "" ∨ st.cart = []) :
    handleCheckout st store = (st, store) ∧
    (st.cart = [] → jsTrim st.address ≠ "" →
      ∃ msg, checkout store st.address (st.cart.map toSubmittedItem) =
        Except.error msg) := by
  constructor
  · rcases h with h | h
    · simp [handleCheckout, h]
    · by_cases ha : jsTrim st.address = ""
      · simp [handleCheckout, ha]
      · have haddr : st.address ≠ "" := by
          intro he
          exact ha (by rw [he, jsTrim_empty])
        simp [handleCheckout, ha, checkout, haddr, h]
  · intro hcart ha
    have haddr : st.address ≠ "" := by
      intro he
      exact ha (by rw [he, jsTrim_empty])
    exact ⟨"order items are required", by simp [checkout, haddr, hcart]⟩

/-- C2 witness: the freshly loaded client (empty cart, empty address)
submits nothing and the empty store stays empty. -/
theorem checkout_rejected_unchanged_witness :
    handleCheckout (initState []) sampleStore = (initState [], sampleStore) ∧
    ((initState []).cart = [] → jsTrim (initState []).address ≠ "" →
      ∃ msg, checkout sampleStore (initState []).address
        ((initState []).cart.map toSubmittedItem) = Except.error msg) :=
  checkout_rejected_unchanged (initState []) sampleStore (Or.inl (by decide))

/-- C7: a successful checkout response switches the client to the
Confirmation panel, empties the cart, clears the address, appends the
returned order to the end of the in-memory order list, and leaves the
product catalog unchanged. -/
theorem checkout_success_panel (st : AppState) (store : Store)
    (h1 : jsTrim st.address ≠ "") (h2 : st.cart ≠ []) :
    ∃ o : Order,
      panel (handleCheckout st store).1 = Panel.confirmation ∧
      (handleCheckout st store).1.cart = [] ∧
      (handleCheckout st store).1.address = "" ∧
      (handleCheckout st store).1.orders = st.orders ++ [o] ∧
      (handleCheckout st store).1.orderConfirmation = some o ∧
      (handleCheckout st store).1.products = st.products := by
  have haddr : st.address ≠ "" := by
    intro he
    exact h1 (by rw [he, jsTrim_empty])
  have hmap : (st.cart.map toSubmittedItem).isEmpty = false := by
    cases hc : st.cart with
    | nil => exact absurd hc h2
    | cons a l => simp [hc]
  refine ⟨{ id := store.nextOrderId,
            total_amount := (st.cart.map toSubmittedItem).foldl
              (fun sum it => sum + it.price * it.quantity) 0,
            shipping_address := st.address, status := "confirmed" }, ?_, ?_, ?_, ?_, ?_, ?_⟩ <;>
    simp [handleCheckout, checkout, h1, haddr, hmap, checkoutSuccess, panel]

/-- C7 witness: checking out the sample state lands on the confirmation
panel with the cart and address cleared and the order appended. -/
theorem checkout_success_panel_witness :
    ∃ o : Order,
      panel (handleCheckout sampleState sampleStore).1 = Panel.confirmation ∧
      (handleCheckout sampleState sampleStore).1.cart = [] ∧
      (handleCheckout sampleState sampleStore).1.address = "" ∧
      (handleCheckout sampleState sampleStore).1.orders = sampleState.orders ++ [o] ∧
      (handleCheckout sampleState sampleStore).1.orderConfirmation = some o ∧
      (handleCheckout sampleState sampleStore).1.products = sampleState.products :=
  checkout_success_panel sampleState sampleStore (by decide) (by decide)

/-- C8: every client state reachable from the loaded application through
the panel transitions (home, orders toggle, cart toggle, select product,
proceed to checkout, buy now, checkout success, continue shopping) has at
most one active panel indicator among showCart, showCheckout, showOrders,
selectedProduct and orderConfirmation, none active denoting the catalog. -/
theorem panel_mutual_exclusion (ps : List Product) (st : AppState)
    (h : ReachableFrom ps st) : activeFlags st ≤ 1 := by
  induction h with
  | refl => simp [activeFlags, initState]
  | tail hsteps hstep ih => exact clientStep_flags hstep

/-- C8 witness: the freshly loaded application is reachable and has no
active panel indicator. -/
theorem panel_mutual_exclusion_witness : activeFlags (initState []) ≤ 1 :=
  panel_mutual_exclusion [] (initState []) Relation.ReflTransGen.refl

/-- C9: buyNow performs exactly the cart mutation of addToCart — the two
resulting carts are identical — and differs only by forcing the panel
flags to the Checkout panel, while addToCart leaves the rendered panel
unchanged. -/
theorem buyNow_vs_addToCart (st : AppState) (p : Product) (fresh : Nat) :
    (buyNow st p fresh).cart = (addToCart st p fresh).cart ∧
    buyNow st p fresh =
      { addToCart st p fresh with
        showCart := false, showCheckout := true, showOrders := false,
        selectedProduct := none } ∧
    panel (addToCart st p fresh) = panel st ∧
    (st.orderConfirmation = none → panel (buyNow st p fresh) = Panel.checkout) := by
  refine ⟨rfl, rfl, rfl, ?_⟩
  intro h
  simp [panel, buyNow, h]

/-- C9 witness: from the product-detail sample state, buy now and add to
cart build the same cart and buy now lands on the checkout panel. -/
theorem buyNow_vs_addToCart_witness :
    (buyNow detailState sampleProduct 9).cart =
      (addToCart detailState sampleProduct 9).cart ∧
    panel (buyNow detailState sampleProduct 9) = Panel.checkout := by
  have h := buyNow_vs_addToCart detailState sampleProduct 9
  exact ⟨h.1, h.2.2.2 (by decide)⟩

/-- C3 witness: adding the sample product twice to an empty cart yields a
single entry with quantity 2. -/
theorem addToCart_merge_or_append_witness :
    addToCartList (addToCartList [] sampleProduct 1) sampleProduct 2 =
      [{ newCartEntry 1 sampleProduct with quantity := 2 }] := by
  have h := (addToCart_merge_or_append [] sampleProduct 1 2).2.2 (by simp)
  simpa using h

/-- C4 witness: setting the sample entry's quantity to 0 removes it from
the singleton cart, leaving no entry with its id. -/
theorem updateQuantity_remove_or_set_witness :
    (updateQuantity [sampleEntry] 7 0).length + 1 =
      ([sampleEntry] : List CartEntry).length ∧
    (∀ it ∈ updateQuantity [sampleEntry] 7 0, it.id ≠ 7) ∧
    (∀ it ∈ ([sampleEntry] : List CartEntry), it.id ≠ 7 →
      it ∈ updateQuantity [sampleEntry] 7 0) :=
  (updateQuantity_remove_or_set [sampleEntry] 7 0 (by decide)).1 (by decide)

/-- C10 witness: typing "0" into the sample entry's quantity input sets its
quantity to 1, and a zero quantity from the decrement button removes it. -/
theorem quantityInput_never_zero_witness :
    quantityInputChange [sampleEntry] 7 (some 0) =
      [{ sampleEntry with quantity := 1 }] ∧
    updateQuantity [sampleEntry] 7 0 = [] := by
  have h := quantityInput_never_zero [sampleEntry] 7
  constructor
  · rw [h.2.1]
    decide
  · rw [h.2.2.2.2.2]
    decide

end AmazonClone
